/-
Verification of the jellytrack session reconciliation and aggregation engine.

The Python source is shallowly embedded: SQLite rows become Lean structures,
table contents become lists of rows, SQL statements become pure functions on
those lists, and timestamps (stored as ISO strings whose lexicographic order
matches chronological order) become integers counting seconds.  Each embedded
definition carries a comment pointing at the function it translates.
-/
import Mathlib

set_option linter.unusedVariables false

namespace Jellytrack

/-- One row of the `sessions` table (src/database.py, `_create_tables`).
The autoincrement surrogate `id` column is omitted: it is never read by the
session lifecycle logic.  Timestamps are seconds (`Int`); the stored ISO-8601
strings compare lexicographically exactly as the corresponding instants. -/
structure SessionRow where
  sessionId : String
  userId : String
  userName : String
  deviceId : String
  deviceName : String
  clientName : String
  mediaId : String
  mediaTitle : String
  mediaType : String
  seriesName : Option String
  seasonNumber : Option Int
  episodeNumber : Option Int
  startedAt : Int
  endedAt : Option Int
  playDurationSeconds : Int
  pausedDurationSeconds : Int
  isActive : Bool
  lastPositionSeconds : Int
  lastStateIsPaused : Bool
  lastProgressUpdate : Int
  deriving DecidableEq, Repr

/-- Clamp an integer to the interval from `lo` to `hi` (spec vocabulary used to
state the delta-calculator claim). -/
def clampI (x lo hi : Int) : Int := min (max lo x) hi

/-- `JellyfinWebSocketClient._calculate_deltas` (src/jellyfin_client.py,
lines 257-283): elapsed wall-clock time since the last observation is clamped
to 0..300; if the session was paused at the last observation the elapsed time
is attributed to pause, otherwise the position advance (clamped below by 0 and
above by elapsed + 10) is attributed to play. -/
def calculate_deltas (existing : SessionRow) (positionSeconds : Int)
    (isPaused : Bool) (now : Int) : Int × Int :=
  let elapsed := max 0 (now - existing.lastProgressUpdate)
  let elapsed := min elapsed 300
  let pausedAdd := if existing.lastStateIsPaused then elapsed else 0
  let playAdd :=
    if existing.lastStateIsPaused then 0
    else min (max 0 (positionSeconds - existing.lastPositionSeconds)) (elapsed + 10)
  (playAdd, pausedAdd)

/-- `Database.create_session` (src/database.py, lines 159-214): an
`INSERT ... ON CONFLICT(session_id) DO UPDATE` statement.  When a row with the
same `session_id` already exists every other column is overwritten with the
incoming values; otherwise the row is appended.  The store is the list of rows
of the `sessions` table in insertion order. -/
def create_session (s : SessionRow) (st : List SessionRow) : List SessionRow :=
  if ∃ r ∈ st, r.sessionId = s.sessionId then
    st.map (fun r => if r.sessionId = s.sessionId then
      { s with sessionId := r.sessionId } else r)
  else st ++ [s]

/-- `Database.get_active_session` (src/database.py, lines 216-225):
`SELECT * FROM sessions WHERE session_id = ? AND is_active = TRUE`, first
matching row. -/
def get_active_session (st : List SessionRow) (sessionId : String) :
    Option SessionRow :=
  st.find? (fun r => decide (r.sessionId = sessionId) && r.isActive)

/-- The row produced by `Database.update_session_state`'s UPDATE on a matching
active row: accumulators are incremented and the live playhead fields are
overwritten, all in the one statement. -/
def applyDeltaRow (positionSeconds : Int) (isPaused : Bool)
    (playAdd pausedAdd now : Int) (r : SessionRow) : SessionRow :=
  { r with
    lastProgressUpdate := now
    playDurationSeconds := r.playDurationSeconds + playAdd
    pausedDurationSeconds := r.pausedDurationSeconds + pausedAdd
    lastPositionSeconds := positionSeconds
    lastStateIsPaused := isPaused }

/-- `Database.update_session_state` (src/database.py, lines 238-267): a single
`UPDATE ... WHERE session_id = ? AND is_active = TRUE` statement.  The second
component is the Python function's return value: its signature is `-> None`
and the cursor (and with it the affected-row count) is discarded, so the
caller receives `none`, never a row count. -/
def update_session_state (sessionId : String) (positionSeconds : Int)
    (isPaused : Bool) (playAdd pausedAdd now : Int) (st : List SessionRow) :
    List SessionRow × Option Nat :=
  (st.map (fun r =>
    if r.sessionId = sessionId ∧ r.isActive = true then
      applyDeltaRow positionSeconds isPaused playAdd pausedAdd now r
    else r), none)

/-- `Database.end_session` (src/database.py, lines 269-280):
`UPDATE sessions SET ended_at = ?, is_active = FALSE WHERE session_id = ? AND
is_active = TRUE`; `now` is the `datetime.now()` taken inside the function. -/
def end_session (sessionId : String) (now : Int) (st : List SessionRow) :
    List SessionRow :=
  st.map (fun r =>
    if r.sessionId = sessionId ∧ r.isActive = true then
      { r with endedAt := some now, isActive := false }
    else r)

/-- `Database.timeout_stale_sessions` (src/database.py, lines 282-294): one
`UPDATE ... SET ended_at = last_progress_update, is_active = FALSE WHERE
is_active = TRUE AND last_progress_update < cutoff` with
`cutoff = now - timeout_minutes * 60`; returns the statement's row count. -/
def timeout_stale_sessions (timeoutMinutes now : Int) (st : List SessionRow) :
    List SessionRow × Nat :=
  let cutoff := now - timeoutMinutes * 60
  (st.map (fun r =>
    if r.isActive = true ∧ r.lastProgressUpdate < cutoff then
      { r with endedAt := some r.lastProgressUpdate, isActive := false }
    else r),
   st.countP (fun r => decide (r.isActive = true ∧ r.lastProgressUpdate < cutoff)))

/-- One row of the `session_aggregates` table (src/database.py,
`_create_aggregate_tables`): an hourly rollup bucket, unique on
(date, hour, user_id, media_id, device_name, client_name). -/
structure AggRow where
  date : Int
  hour : Int
  userId : String
  userName : String
  mediaId : String
  mediaTitle : String
  mediaType : String
  seriesName : Option String
  deviceName : String
  clientName : String
  sessionCount : Int
  playSeconds : Int
  pausedSeconds : Int
  deriving DecidableEq, Repr

/-- SQLite `date(started_at)` on the integer time model: the civil day. -/
def dateOf (t : Int) : Int := t.fdiv 86400

/-- SQLite `CAST(strftime(..H.., started_at) AS INTEGER)`: the hour of day. -/
def hourOf (t : Int) : Int := (t.emod 86400).fdiv 3600

/-- SQL `MAX` on two TEXT values. -/
def maxStr (a b : String) : String := if a < b then b else a

/-- SQL `MAX` aggregation step on nullable TEXT: NULLs are ignored. -/
def maxOptStr (a b : Option String) : Option String :=
  match a, b with
  | none, b => b
  | a, none => a
  | some x, some y => some (maxStr x y)

/-- The two aggregate rows land in the same unique-index bucket
(date, hour, user_id, media_id, device_name, client_name). -/
def sameBucket (a b : AggRow) : Bool :=
  decide (a.date = b.date ∧ a.hour = b.hour ∧ a.userId = b.userId ∧
    a.mediaId = b.mediaId ∧ a.deviceName = b.deviceName ∧
    a.clientName = b.clientName)

/-- The contribution of a single finalized session row to its bucket in the
`aggregate_and_prune` SELECT: `COUNT(*)` counts it once, the duration sums
take its accumulators, the display fields its values. -/
def rowBucket (r : SessionRow) : AggRow :=
  { date := dateOf r.startedAt, hour := hourOf r.startedAt, userId := r.userId,
    userName := r.userName, mediaId := r.mediaId, mediaTitle := r.mediaTitle,
    mediaType := r.mediaType, seriesName := r.seriesName,
    deviceName := r.deviceName, clientName := r.clientName,
    sessionCount := 1, playSeconds := r.playDurationSeconds,
    pausedSeconds := r.pausedDurationSeconds }

/-- Combining two contributions inside one GROUP BY group: counts and
durations add, display columns take `MAX`. -/
def groupCombine (a g : AggRow) : AggRow :=
  { a with
    sessionCount := a.sessionCount + g.sessionCount
    playSeconds := a.playSeconds + g.playSeconds
    pausedSeconds := a.pausedSeconds + g.pausedSeconds
    userName := maxStr a.userName g.userName
    mediaTitle := maxStr a.mediaTitle g.mediaTitle
    mediaType := maxStr a.mediaType g.mediaType
    seriesName := maxOptStr a.seriesName g.seriesName }

/-- The `ON CONFLICT ... DO UPDATE` of `aggregate_and_prune`: counts and
durations add, display columns are overwritten with the excluded values. -/
def upsertCombine (a g : AggRow) : AggRow :=
  { a with
    sessionCount := a.sessionCount + g.sessionCount
    playSeconds := a.playSeconds + g.playSeconds
    pausedSeconds := a.pausedSeconds + g.pausedSeconds
    userName := g.userName
    mediaTitle := g.mediaTitle
    mediaType := g.mediaType
    seriesName := g.seriesName }

/-- Merge a contribution into a list of aggregate rows: the first (and, by the
unique index, only) row of the same bucket is combined with it, otherwise it
is appended as a fresh row. -/
def mergeBy (combine : AggRow → AggRow → AggRow) :
    List AggRow → AggRow → List AggRow
  | [], g => [g]
  | a :: as, g =>
    if sameBucket a g then combine a g :: as else a :: mergeBy combine as g

/-- The `SELECT ... GROUP BY date, hour, user_id, media_id, device_name,
client_name` of `aggregate_and_prune`, producing one aggregate row per
bucket over the given session rows. -/
def group_sessions (rows : List SessionRow) : List AggRow :=
  rows.foldl (fun gs r => mergeBy groupCombine gs (rowBucket r)) []

/-- The WHERE clause `started_at < cutoff AND is_active = FALSE` shared by the
merge SELECT and the DELETE of `aggregate_and_prune`. -/
def agedRow (cutoff : Int) (r : SessionRow) : Bool :=
  decide (r.startedAt < cutoff) && !r.isActive

/-- The two persisted tables: raw sessions plus hourly aggregates. -/
structure AggState where
  sessions : List SessionRow
  aggregates : List AggRow
  deriving DecidableEq, Repr

/-- `Database.aggregate_and_prune` (src/database.py, lines 296-349): in one
transaction, every finalized session older than
`cutoff = now - retention_days` is summed into its
(date, hour, user, media, device, client) bucket — additively on conflict —
and exactly those raw rows are deleted; the DELETE row count is returned.
The pure state transition is atomic by construction, mirroring the
commit/rollback-wholesale transaction of the source. -/
def aggregate_and_prune (retentionDays now : Int) (st : AggState) :
    AggState × Nat :=
  let cutoff := now - retentionDays * 86400
  let aged := st.sessions.filter (agedRow cutoff)
  let newAggs := (group_sessions aged).foldl (mergeBy upsertCombine) st.aggregates
  let remaining := st.sessions.filter (fun r => !(agedRow cutoff r))
  ({ sessions := remaining, aggregates := newAggs }, aged.length)

/-- Total `session_count` over a list of aggregate rows. -/
def sumCountAgg (l : List AggRow) : Int := (l.map (·.sessionCount)).sum

/-- Total `play_seconds` over a list of aggregate rows. -/
def sumPlayAgg (l : List AggRow) : Int := (l.map (·.playSeconds)).sum

/-- Total `paused_seconds` over a list of aggregate rows. -/
def sumPausedAgg (l : List AggRow) : Int := (l.map (·.pausedSeconds)).sum

/-- Total `play_duration_seconds` over a list of session rows. -/
def sumPlayRows (l : List SessionRow) : Int :=
  (l.map (·.playDurationSeconds)).sum

/-- Total `paused_duration_seconds` over a list of session rows. -/
def sumPausedRows (l : List SessionRow) : Int :=
  (l.map (·.pausedDurationSeconds)).sum

/-- The now-playing subject of a snapshot entry (`NowPlayingItem` /
`Item` payload fields read by `_extract_playback_event`). -/
structure NowItem where
  id : String
  name : String
  itemType : String
  seriesName : Option String
  seasonNumber : Option Int
  episodeNumber : Option Int
  deriving DecidableEq, Repr

/-- One entry of a `Sessions` snapshot message as read by `_handle_sessions`:
identity/actor/endpoint fields, the optional now-playing subject, and the play
state (`PositionTicks` may be absent or null, defaulting to 0). -/
structure SnapEntry where
  id : String
  userId : String
  userName : String
  deviceId : String
  deviceName : String
  client : String
  nowPlaying : Option NowItem
  positionTicks : Option Int
  isPaused : Bool
  deriving DecidableEq, Repr

/-- `_extract_playback_event` + `_create_session` (src/jellyfin_client.py,
lines 210-255): the fresh session row created for a first-seen session — zero
accumulators, active, playhead from the event, timestamps `now`. -/
def freshRowFromEntry (e : SnapEntry) (item : NowItem) (positionSeconds : Int)
    (isPaused : Bool) (now : Int) : SessionRow :=
  { sessionId := e.id, userId := e.userId, userName := e.userName,
    deviceId := e.deviceId, deviceName := e.deviceName, clientName := e.client,
    mediaId := item.id, mediaTitle := item.name, mediaType := item.itemType,
    seriesName := item.seriesName, seasonNumber := item.seasonNumber,
    episodeNumber := item.episodeNumber, startedAt := now, endedAt := none,
    playDurationSeconds := 0, pausedDurationSeconds := 0, isActive := true,
    lastPositionSeconds := positionSeconds, lastStateIsPaused := isPaused,
    lastProgressUpdate := now }

/-- Per-entry body of the `_handle_sessions` loop (src/jellyfin_client.py,
lines 124-152): entries without a now-playing subject or with an empty id are
skipped; otherwise the position is `PositionTicks // 10_000_000` (null
defaults to 0) and the entry either creates a session (no active one stored)
or applies calculator deltas to the stored active session. -/
def handle_snapshot_entry (now : Int) (st : List SessionRow) (e : SnapEntry) :
    List SessionRow :=
  match e.nowPlaying with
  | none => st
  | some item =>
    if e.id = "" then st
    else
      let pos := (e.positionTicks.getD 0).fdiv 10000000
      match get_active_session st e.id with
      | none => create_session (freshRowFromEntry e item pos e.isPaused now) st
      | some ex =>
        (update_session_state e.id pos e.isPaused
          (calculate_deltas ex pos e.isPaused now).1
          (calculate_deltas ex pos e.isPaused now).2 now st).1

/-- The `active_session_ids` set accumulated by `_handle_sessions`: the ids of
the snapshot entries that carry a non-empty now-playing subject and a
non-empty id. -/
def presentIds (snapshot : List SnapEntry) : List String :=
  (snapshot.filter (fun e => e.nowPlaying.isSome && !(decide (e.id = "")))).map
    (fun e => e.id)

/-- The fields declared on `Settings` (src/config.py) do not include
`excluded_user_names_list`, which `Database._build_exclusion_clause`
(src/database.py, line 65) reads from the settings object: the attribute
lookup has no value to produce, modelled as `none`. -/
def settingsExcludedUserNamesList : Option (List String) := none

/-- `Database._build_exclusion_clause` (src/database.py, lines 64-69), as the
row predicate its SQL clause denotes.  Reading the undeclared settings
attribute raises `AttributeError`, modelled as the error branch; were the
attribute present, an empty list would add no clause and a non-empty list
would exclude the listed user names. -/
def build_exclusion_predicate : Except String (SessionRow → Bool) :=
  match settingsExcludedUserNamesList with
  | none =>
    Except.error
      "AttributeError: Settings object has no attribute excluded_user_names_list"
  | some excluded =>
    Except.ok (fun r =>
      if excluded.isEmpty then true else !(excluded.contains r.userName))

/-- `Database.get_active_sessions` with no filters (src/database.py,
lines 351-368): all active rows passing the exclusion clause.  The exception
from the exclusion clause propagates. -/
def get_active_sessions (st : List SessionRow) :
    Except String (List SessionRow) :=
  match build_exclusion_predicate with
  | Except.error e => Except.error e
  | Except.ok keep => Except.ok (st.filter (fun r => r.isActive && keep r))

/-- Body of the ended-session sweep of `_handle_sessions`
(src/jellyfin_client.py, lines 156-160) combined with `_finalize_session`
(lines 285-299): a stored active session absent from the snapshot ids gets the
final interval's deltas applied (at its stored position and pause state) and
is then ended. -/
def absence_step (ids : List String) (now : Int) (st : List SessionRow)
    (r : SessionRow) : List SessionRow :=
  if r.sessionId ∈ ids then st
  else
    end_session r.sessionId now
      (update_session_state r.sessionId r.lastPositionSeconds
        r.lastStateIsPaused
        (calculate_deltas r r.lastPositionSeconds r.lastStateIsPaused now).1
        (calculate_deltas r r.lastPositionSeconds r.lastStateIsPaused now).2
        now st).1

/-- `_handle_sessions` (src/jellyfin_client.py, lines 119-163): process every
snapshot entry against the store, then fetch the active sessions and finalize
those absent from the snapshot.  `db.get_active_sessions()` raises
(see `build_exclusion_predicate`); the exception aborts the handler — the
per-entry updates are already committed — and is caught and logged by
`_handle_message`, returned here as the second component. -/
def handle_sessions (snapshot : List SnapEntry) (now : Int)
    (st : List SessionRow) : List SessionRow × Option String :=
  let st1 := snapshot.foldl (handle_snapshot_entry now) st
  match get_active_sessions st1 with
  | Except.error e => (st1, some e)
  | Except.ok actives =>
    (actives.foldl (absence_step (presentIds snapshot) now) st1, none)

/-- The `PlaybackStart` payload fields read by `_handle_playback_start`. -/
structure StartData where
  sessionId : String
  userId : String
  userName : String
  deviceId : String
  deviceName : String
  client : String
  item : Option NowItem
  deriving DecidableEq, Repr

/-- The session row `_handle_playback_start` creates: extraction of the
normalized session-like structure, position 0, not paused. -/
def freshRowFromStart (d : StartData) (item : NowItem) (now : Int) :
    SessionRow :=
  { sessionId := d.sessionId, userId := d.userId, userName := d.userName,
    deviceId := d.deviceId, deviceName := d.deviceName, clientName := d.client,
    mediaId := item.id, mediaTitle := item.name, mediaType := item.itemType,
    seriesName := item.seriesName, seasonNumber := item.seasonNumber,
    episodeNumber := item.episodeNumber, startedAt := now, endedAt := none,
    playDurationSeconds := 0, pausedDurationSeconds := 0, isActive := true,
    lastPositionSeconds := 0, lastStateIsPaused := false,
    lastProgressUpdate := now }

/-- `_handle_playback_start` (src/jellyfin_client.py, lines 165-188): empty
session id or missing item is a no-op; otherwise a session is created only
when no active session with that id exists. -/
def handle_playback_start (d : StartData) (now : Int) (st : List SessionRow) :
    List SessionRow :=
  if d.sessionId = "" then st
  else
    match d.item with
    | none => st
    | some item =>
      match get_active_session st d.sessionId with
      | some _ => st
      | none => create_session (freshRowFromStart d item now) st

/-- The store operations the running system performs on one session id:
`create` is the reconciler's upsert of a fresh session (guarded by
`get_active_session`), `observe` the active-to-active progress update with
calculator deltas (`_handle_sessions`), `stop` the explicit stop path
(`_handle_playback_stop`: final deltas, then `end_session`), and `reap` the
stale-session sweep (`timeout_stale_sessions`, `cutoff = now - timeout`). -/
inductive StoreOp where
  | create (e : SnapEntry) (item : NowItem) (positionSeconds : Int)
      (isPaused : Bool) (now : Int)
  | observe (positionSeconds : Int) (isPaused : Bool) (now : Int)
  | stop (positionSeconds : Int) (isPaused : Bool) (now : Int)
  | reap (cutoff : Int)
  deriving DecidableEq, Repr

/-- Whether the operation is the create/upsert path. -/
def StoreOp.isCreate : StoreOp → Bool
  | .create _ _ _ _ _ => true
  | _ => false

/-- One system operation applied to the stored state of a single session id
(`none` = no row).  `create` follows `_handle_sessions`/`_handle_playback_start`:
it is only reached when no active session exists, and its upsert overwrites a
finalized row with the fresh session (zero accumulators).  `observe` and
`stop` compute calculator deltas against the stored row and update only while
active; `reap` finalizes an active row older than the cutoff. -/
def step_session : Option SessionRow → StoreOp → Option SessionRow
  | s, .create e item pos paused now =>
    match s with
    | none => some (freshRowFromEntry e item pos paused now)
    | some r =>
      if r.isActive then some r
      else some { freshRowFromEntry e item pos paused now with
        sessionId := r.sessionId }
  | s, .observe pos paused now =>
    match s with
    | none => none
    | some r =>
      if r.isActive then
        some (applyDeltaRow pos paused (calculate_deltas r pos paused now).1
          (calculate_deltas r pos paused now).2 now r)
      else some r
  | s, .stop pos paused now =>
    match s with
    | none => none
    | some r =>
      if r.isActive then
        some { applyDeltaRow pos paused (calculate_deltas r pos paused now).1
          (calculate_deltas r pos paused now).2 now r with
          endedAt := some now, isActive := false }
      else some r
  | s, .reap cutoff =>
    match s with
    | none => none
    | some r =>
      if r.isActive = true ∧ r.lastProgressUpdate < cutoff then
        some { r with endedAt := some r.lastProgressUpdate, isActive := false }
      else some r

/-- Run a sequence of system operations against an initially absent row. -/
def run_ops (ops : List StoreOp) : Option SessionRow :=
  ops.foldl step_session none

/-- Both duration accumulators of the stored row (if any) are nonnegative. -/
def AccNonneg : Option SessionRow → Prop
  | none => True
  | some r => 0 ≤ r.playDurationSeconds ∧ 0 ≤ r.pausedDurationSeconds

/-- A sample session row used as the concrete input of witness and
counterexample theorems. -/
def sampleRow : SessionRow :=
  { sessionId := "s1", userId := "u1", userName := "User One", deviceId := "d1",
    deviceName := "Device", clientName := "Client", mediaId := "m1",
    mediaTitle := "Movie", mediaType := "Movie", seriesName := none,
    seasonNumber := none, episodeNumber := none, startedAt := 0, endedAt := none,
    playDurationSeconds := 0, pausedDurationSeconds := 0, isActive := true,
    lastPositionSeconds := 0, lastStateIsPaused := false, lastProgressUpdate := 0 }

/-- `Database.get_session_by_id` (src/database.py, lines 227-236):
`SELECT * FROM sessions WHERE session_id = ?`, first matching row, active or
not. -/
def get_session_by_id (st : List SessionRow) (sessionId : String) :
    Option SessionRow :=
  st.find? (fun r => decide (r.sessionId = sessionId))

/-- Value of a run of decimal digit characters. -/
def digitsVal (cs : List Char) : Nat :=
  cs.foldl (fun n c => n * 10 + (c.toNat - 48)) 0

/-- Read exactly `n` decimal digits, returning their value and the rest. -/
def parseNDigits (n : Nat) (cs : List Char) : Option (Nat × List Char) :=
  let pre := cs.take n
  if pre.length = n ∧ pre.all (·.isDigit) then some (digitsVal pre, cs.drop n)
  else none

/-- Expect one specific character. -/
def expectChar (c : Char) : List Char → Option (List Char)
  | [] => none
  | x :: rest => if x = c then some rest else none

/-- A parsed Python `datetime`: calendar fields plus an optional UTC offset in
minutes. -/
structure PDateTime where
  year : Nat
  month : Nat
  day : Nat
  hour : Nat
  minute : Nat
  second : Nat
  microsecond : Nat
  offsetMinutes : Option Int
  deriving DecidableEq, Repr

/-- Calendar-field range validation performed by `datetime`. -/
def validDate (y m d : Nat) : Bool :=
  decide (1 ≤ m ∧ m ≤ 12 ∧ 1 ≤ d ∧ d ≤ 31)

/-- Time-field range validation performed by `datetime`. -/
def validTime (h mi s : Nat) : Bool :=
  decide (h ≤ 23 ∧ mi ≤ 59 ∧ s ≤ 59)

/-- Parse `YYYY-MM-DD`. -/
def parseDatePart (cs : List Char) : Option ((Nat × Nat × Nat) × List Char) := do
  let (y, cs) ← parseNDigits 4 cs
  let cs ← expectChar '-' cs
  let (m, cs) ← parseNDigits 2 cs
  let cs ← expectChar '-' cs
  let (d, cs) ← parseNDigits 2 cs
  if validDate y m d then some ((y, m, d), cs) else none

/-- Parse `HH:MM:SS`. -/
def parseTimePart (cs : List Char) : Option ((Nat × Nat × Nat) × List Char) := do
  let (h, cs) ← parseNDigits 2 cs
  let cs ← expectChar ':' cs
  let (mi, cs) ← parseNDigits 2 cs
  let cs ← expectChar ':' cs
  let (s, cs) ← parseNDigits 2 cs
  if validTime h mi s then some ((h, mi, s), cs) else none

/-- Fractional seconds accepted by `datetime.fromisoformat`: a dot followed by
exactly 3 or 6 digits; value in microseconds. -/
def parseFracIso (cs : List Char) : Option (Nat × List Char) :=
  match cs with
  | '.' :: rest =>
    let ds := rest.takeWhile (·.isDigit)
    if ds.length = 3 then some (digitsVal ds * 1000, rest.drop 3)
    else if ds.length = 6 then some (digitsVal ds, rest.drop 6)
    else none
  | _ => none

/-- UTC offset `+HH:MM` / `-HH:MM` accepted by `fromisoformat`. -/
def parseOffset (cs : List Char) : Option (Int × List Char) :=
  match cs with
  | c :: rest =>
    if c = '+' ∨ c = '-' then do
      let (oh, rest) ← parseNDigits 2 rest
      let rest ← expectChar ':' rest
      let (om, rest) ← parseNDigits 2 rest
      let total : Int := (oh : Int) * 60 + (om : Int)
      some ((if c = '-' then -total else total), rest)
    else none
  | [] => none

/-- Python `datetime.fromisoformat` on the grammar
`YYYY-MM-DD[<one separator char>HH:MM:SS[.fff|.ffffff][(+|-)HH:MM]]` that
`isoformat` emits (the subset the importer feeds it). -/
def pyFromIsoformat (cs : List Char) : Option PDateTime := do
  let ((y, m, d), rest) ← parseDatePart cs
  match rest with
  | [] => some ⟨y, m, d, 0, 0, 0, 0, none⟩
  | _sep :: rest2 => do
    let ((h, mi, s), rest3) ← parseTimePart rest2
    let (micro, rest4) := match parseFracIso rest3 with
      | some (v, r) => (v, r)
      | none => (0, rest3)
    match rest4 with
    | [] => some ⟨y, m, d, h, mi, s, micro, none⟩
    | _ => do
      let (off, rest5) ← parseOffset rest4
      match rest5 with
      | [] => some ⟨y, m, d, h, mi, s, micro, some off⟩
      | _ => none

/-- Python `datetime.strptime(s, "%Y-%m-%d %H:%M:%S.%f")` at the canonical
field widths: date, space, time, a dot and 1-6 fractional-second digits. -/
def pyStrptimeFrac (cs : List Char) : Option PDateTime := do
  let ((y, m, d), rest) ← parseDatePart cs
  let rest ← expectChar ' ' rest
  let ((h, mi, s), rest2) ← parseTimePart rest
  match rest2 with
  | '.' :: ds =>
    if ds ≠ [] ∧ ds.length ≤ 6 ∧ ds.all (·.isDigit) then
      some ⟨y, m, d, h, mi, s, digitsVal ds * 10 ^ (6 - ds.length), none⟩
    else none
  | _ => none

/-- Python `datetime.strptime(s, "%Y-%m-%d %H:%M:%S")` at the canonical field
widths; the whole input must be consumed. -/
def pyStrptimeSec (cs : List Char) : Option PDateTime := do
  let ((y, m, d), rest) ← parseDatePart cs
  let rest ← expectChar ' ' rest
  let ((h, mi, s), rest2) ← parseTimePart rest
  match rest2 with
  | [] => some ⟨y, m, d, h, mi, s, 0, none⟩
  | _ => none

/-- `date_str.replace(Z, +00:00)` from the importer. -/
def replaceZ (cs : List Char) : List Char :=
  cs.foldr (fun c acc =>
    if c = 'Z' then '+' :: '0' :: '0' :: ':' :: '0' :: '0' :: acc
    else c :: acc) []

/-- The importer's `DateCreated` parse chain (src/importer.py, lines 92-100):
`fromisoformat` on the Z-normalized string, falling back to strptime with
fractional seconds, falling back to strptime on the first 19 characters.
That third call is NOT wrapped in try/except: `none` here becomes an uncaught
`ValueError` in `import_all`. -/
def parse_date_created (s : String) : Option PDateTime :=
  match pyFromIsoformat (replaceZ s.data) with
  | some d => some d
  | none =>
    match pyStrptimeFrac s.data with
    | some d => some d
    | none => pyStrptimeSec (s.data.take 19)

/-- Days from the civil epoch 1970-01-01 (standard civil-calendar
conversion). -/
def daysFromCivil (y m d : Int) : Int :=
  let y2 := if m ≤ 2 then y - 1 else y
  let era := y2.fdiv 400
  let yoe := y2 - era * 400
  let mp := (m + 9).emod 12
  let doy := (153 * mp + 2).fdiv 5 + d - 1
  let doe := yoe * 365 + yoe.fdiv 4 - yoe.fdiv 100 + doy
  era * 146097 + doe - 719468

/-- A parsed datetime as seconds on the store's integer time line
(microseconds and offsets are below the store's whole-second, naive-local
granularity and are dropped). -/
def pdtToSeconds (dt : PDateTime) : Int :=
  daysFromCivil dt.year dt.month dt.day * 86400 +
    (dt.hour : Int) * 3600 + (dt.minute : Int) * 60 + (dt.second : Int)

/-- Substring containment (Python `sub in s`). -/
def containsSub (sep : List Char) : List Char → Bool
  | [] => sep.isEmpty
  | c :: rest => sep.isPrefixOf (c :: rest) || containsSub sep rest

/-- Python `s.split(" - ", n)`: split on the literal separator at most `n`
times, the remainder staying in the last part. -/
def splitDashMax : Nat → List Char → List Char → List (List Char)
  | _, [], acc => [acc.reverse]
  | 0, cs, acc => [acc.reverse ++ cs]
  | n + 1, ' ' :: '-' :: ' ' :: rest, acc =>
    acc.reverse :: splitDashMax n rest []
  | n + 1, c :: rest, acc => splitDashMax (n + 1) rest (c :: acc)
  termination_by _ cs _ => cs.length

/-- Python `int(s)` on a sign-prefixed digit string (surrounding whitespace,
absent from the slices fed here, is not modelled); `none` is the
`ValueError`. -/
def pyInt (cs : List Char) : Option Int :=
  match cs with
  | '-' :: ds =>
    if ds ≠ [] ∧ ds.all (·.isDigit) then some (-(digitsVal ds : Int)) else none
  | '+' :: ds =>
    if ds ≠ [] ∧ ds.all (·.isDigit) then some ((digitsVal ds : Int)) else none
  | ds =>
    if ds ≠ [] ∧ ds.all (·.isDigit) then some ((digitsVal ds : Int)) else none

/-- The episode-title parser of `import_all` (src/importer.py, lines 102-129):
titles shaped `<Series> - sNNeNN - <Episode Title>` yield series name, season
and episode numbers and the episode title; `int()` failures are swallowed
(the season survives if only the episode part fails); other titles pass
through unchanged.  Returns (series name, season, episode, media title). -/
def parse_item_name (itemName : List Char) :
    Option (List Char) × Option Int × Option Int × List Char :=
  if containsSub (' ' :: '-' :: ' ' :: 's' :: []) itemName ∧
      itemName.any (· = 'e') then
    match splitDashMax 2 itemName [] with
    | p0 :: p1 :: rest =>
      let mediaTitle := match rest with
        | p2 :: _ => p2
        | [] => itemName
      let se := p1.map Char.toLower
      if se.head? = some 's' ∧ se.any (· = 'e') then
        let sIdx := se.findIdx (· = 's')
        let eIdx := se.findIdx (· = 'e')
        let seasonStr := (se.drop (sIdx + 1)).take (eIdx - (sIdx + 1))
        let epStr := se.drop (eIdx + 1)
        match pyInt seasonStr with
        | none => (some p0, none, none, mediaTitle)
        | some a => (some p0, some a, pyInt epStr, mediaTitle)
      else (some p0, none, none, mediaTitle)
    | _ => (none, none, none, itemName)
  else (none, none, none, itemName)

/-- One result row of the Playback Reporting custom query, in the column
order requested by `import_all`. -/
structure ImportRow where
  rowid : Option Nat
  dateCreated : String
  userId : String
  itemId : String
  itemType : String
  itemName : String
  playbackMethod : String
  clientName : String
  deviceName : String
  playDuration : Int
  deriving DecidableEq, Repr

/-- The fingerprint `"|".join(str(row_dict.get(k, "")) for k in columns)`
hashed when `rowid` is falsy; the SHA-1 digest is modelled by the (injective)
fingerprint string itself. -/
def import_fingerprint (r : ImportRow) : String :=
  (match r.rowid with | some n => toString n | none => "None") ++ "|" ++
    r.dateCreated ++ "|" ++ r.userId ++ "|" ++ r.itemId ++ "|" ++
    r.itemType ++ "|" ++ r.itemName ++ "|" ++ r.playbackMethod ++ "|" ++
    r.clientName ++ "|" ++ r.deviceName ++ "|" ++ toString r.playDuration

/-- The stable synthetic session id of an import row (src/importer.py,
lines 77-84): `imported_<rowid>` when rowid is truthy, else the digest form. -/
def import_session_id (r : ImportRow) : String :=
  match r.rowid with
  | some n =>
    if n ≠ 0 then "imported_" ++ toString n
    else "imported_" ++ import_fingerprint r
  | none => "imported_" ++ import_fingerprint r

/-- The `models.Session` built for an import row (src/importer.py,
lines 134-152): finalized immediately, `ended_at = started_at`, play duration
from `PlayDuration`, remaining accounting fields at their model defaults. -/
def build_imported_session (userNames : List (String × String))
    (r : ImportRow) (sid : String) (startedAt : Int) : SessionRow :=
  let parsed := parse_item_name r.itemName.data
  { sessionId := sid, userId := r.userId,
    userName := (userNames.lookup r.userId).getD "Unknown",
    deviceId := "imported_" ++ r.deviceName, deviceName := r.deviceName,
    clientName := r.clientName, mediaId := r.itemId,
    mediaTitle := String.mk parsed.2.2.2,
    mediaType := r.itemType,
    seriesName := parsed.1.map String.mk,
    seasonNumber := parsed.2.1, episodeNumber := parsed.2.2.1,
    startedAt := startedAt, endedAt := some startedAt,
    playDurationSeconds := r.playDuration, pausedDurationSeconds := 0,
    isActive := false, lastPositionSeconds := 0, lastStateIsPaused := false,
    lastProgressUpdate := startedAt }

/-- The row loop of `PlaybackReportingImporter.import_all` (src/importer.py,
lines 74-162): per row, derive the stable id, skip rows already imported,
parse `DateCreated` — a parse failure of all three formats is an uncaught
`ValueError` that aborts the whole import — then insert and count.  Returns
the final store with the imported and skipped counts. -/
def import_all_rows (userNames : List (String × String)) :
    List ImportRow → List SessionRow → Nat → Nat →
      Except String (List SessionRow × Nat × Nat)
  | [], st, imported, skipped => Except.ok (st, imported, skipped)
  | r :: rest, st, imported, skipped =>
    let sid := import_session_id r
    if (get_session_by_id st sid).isSome then
      import_all_rows userNames rest st imported (skipped + 1)
    else
      match parse_date_created r.dateCreated with
      | none => Except.error "ValueError: unparseable DateCreated"
      | some dt =>
        import_all_rows userNames rest
          (create_session
            (build_imported_session userNames r sid (pdtToSeconds dt)) st)
          (imported + 1) skipped

/-- An import row whose `DateCreated` fails every parse format. -/
def badImportRow : ImportRow :=
  { rowid := some 1, dateCreated := "not-a-date", userId := "user-1",
    itemId := "item-1", itemType := "Movie", itemName := "Other Movie",
    playbackMethod := "DirectPlay", clientName := "Client",
    deviceName := "Device", playDuration := 60 }

/-- An import row with a well-formed `DateCreated`. -/
def goodImportRow : ImportRow :=
  { badImportRow with
    rowid := some 2
    dateCreated := "2024-01-02 03:04:05"
    itemId := "item-2" }

/-- A sample now-playing subject for concrete inputs. -/
def sampleItem : NowItem :=
  { id := "m1", name := "Title", itemType := "Movie", seriesName := none,
    seasonNumber := none, episodeNumber := none }

/-- A sample snapshot entry for a playing session `s2`. -/
def sampleEntry : SnapEntry :=
  { id := "s2", userId := "u2", userName := "User Two", deviceId := "d2",
    deviceName := "Device Two", client := "Client Two",
    nowPlaying := some sampleItem, positionTicks := some 50000000,
    isPaused := false }

/-- A sample `PlaybackStart` payload for session `s1`. -/
def sampleStart : StartData :=
  { sessionId := "s1", userId := "u1", userName := "User One",
    deviceId := "d1", deviceName := "Device", client := "Client",
    item := some sampleItem }

end Jellytrack

namespace Jellytrack

/-- Claim C1: for every stored session state and observation, the delta
calculator returns `(0, elapsed clamped to 0..300)` when the session was
paused at the last observation and `(position delta clamped to 0..elapsed+10,
0)` when it was not, and the components always satisfy those bounds.  The
function is a pure Lean function, hence deterministic and side-effect-free. -/
theorem calculate_deltas_characterization (existing : SessionRow)
    (positionSeconds : Int) (isPaused : Bool) (now : Int) :
    calculate_deltas existing positionSeconds isPaused now =
      (if existing.lastStateIsPaused then
        (0, clampI (now - existing.lastProgressUpdate) 0 300)
      else
        (clampI (positionSeconds - existing.lastPositionSeconds) 0
          (clampI (now - existing.lastProgressUpdate) 0 300 + 10), 0)) ∧
    0 ≤ (calculate_deltas existing positionSeconds isPaused now).1 ∧
    (calculate_deltas existing positionSeconds isPaused now).1 ≤
      clampI (now - existing.lastProgressUpdate) 0 300 + 10 ∧
    0 ≤ (calculate_deltas existing positionSeconds isPaused now).2 ∧
    (calculate_deltas existing positionSeconds isPaused now).2 ≤ 300 := by
  cases h : existing.lastStateIsPaused <;>
    simp [calculate_deltas, clampI, h, Prod.mk.injEq] <;> omega

end Jellytrack

namespace Jellytrack

/-- Claim C7: `create_session` (the upsert) is idempotent: a second call with
identical data leaves the stored state unchanged, and when the session id is
absent the first call inserts the row. -/
theorem create_session_idempotent (s : SessionRow) (st : List SessionRow) :
    create_session s (create_session s st) = create_session s st ∧
    ((∀ r ∈ st, ¬ r.sessionId = s.sessionId) → create_session s st = st ++ [s]) := by
  have hover : ∀ r : SessionRow,
      (fun r => if r.sessionId = s.sessionId then
        { s with sessionId := r.sessionId } else r)
      ((fun r => if r.sessionId = s.sessionId then
        { s with sessionId := r.sessionId } else r) r) =
      (fun r => if r.sessionId = s.sessionId then
        { s with sessionId := r.sessionId } else r) r := by
    intro r
    by_cases hr : r.sessionId = s.sessionId <;> simp [hr]
  constructor
  · by_cases h : ∃ r ∈ st, r.sessionId = s.sessionId
    · obtain ⟨r0, hr0, hsid0⟩ := h
      have hfirst : create_session s st = st.map
          (fun r => if r.sessionId = s.sessionId then
            { s with sessionId := r.sessionId } else r) := by
        rw [create_session, if_pos ⟨r0, hr0, hsid0⟩]
      have h2 : ∃ r ∈ st.map (fun r => if r.sessionId = s.sessionId then
          { s with sessionId := r.sessionId } else r), r.sessionId = s.sessionId := by
        refine ⟨_, List.mem_map_of_mem _ hr0, ?_⟩
        simp [hsid0]
      rw [hfirst, create_session, if_pos h2, List.map_map]
      exact List.map_congr_left (fun r _ => hover r)
    · have hfirst : create_session s st = st ++ [s] := by
        rw [create_session, if_neg h]
      have h2 : ∃ r ∈ st ++ [s], r.sessionId = s.sessionId := ⟨s, by simp⟩
      rw [hfirst, create_session, if_pos h2, List.map_append]
      have hid : st.map (fun r => if r.sessionId = s.sessionId then
          { s with sessionId := r.sessionId } else r) = st := by
        conv_rhs => rw [← List.map_id st]
        refine List.map_congr_left (fun r hr => ?_)
        have : ¬ r.sessionId = s.sessionId := fun hc => h ⟨r, hr, hc⟩
        simp [this]
      rw [hid]
      simp
  · intro hall
    rw [create_session, if_neg (fun ⟨r, hr, hc⟩ => hall r hr hc)]

/-- Witness for C7 at a concrete row: inserting into the empty store, then
upserting the identical data again, changes nothing. -/
theorem create_session_idempotent_witness :
    create_session sampleRow ([] : List SessionRow) = [] ++ [sampleRow] ∧
    create_session sampleRow (create_session sampleRow []) =
      create_session sampleRow [] :=
  ⟨(create_session_idempotent sampleRow []).2 (by simp),
   (create_session_idempotent sampleRow []).1⟩

/-- Claim C8: `end_session` finalizes only a currently active row, so a second
call is a no-op: the store, including the `ended_at` written by the first
call, is unchanged whatever timestamp the second call carries. -/
theorem end_session_idempotent (sessionId : String) (now1 now2 : Int)
    (st : List SessionRow) :
    end_session sessionId now2 (end_session sessionId now1 st) =
      end_session sessionId now1 st := by
  simp only [end_session, List.map_map]
  refine List.map_congr_left (fun r _ => ?_)
  by_cases hr : r.sessionId = sessionId ∧ r.isActive = true
  · simp [Function.comp, hr, hr.1]
  · simp [Function.comp, hr]

/-- Claim C4: `timeout_stale_sessions` finalizes exactly the active rows whose
`last_progress_update` is older than `now - timeout`, setting each one's
`ended_at` to its own `last_progress_update`; every other row is untouched,
and the returned count is the number of affected rows. -/
theorem timeout_stale_sessions_spec (timeoutMinutes now : Int)
    (st : List SessionRow) :
    (∀ r ∈ st, r.isActive = true →
      r.lastProgressUpdate < now - timeoutMinutes * 60 →
      { r with endedAt := some r.lastProgressUpdate, isActive := false }
        ∈ (timeout_stale_sessions timeoutMinutes now st).1) ∧
    (∀ r ∈ st,
      (r.isActive = true → ¬ r.lastProgressUpdate < now - timeoutMinutes * 60) →
      r ∈ (timeout_stale_sessions timeoutMinutes now st).1) ∧
    (∀ r2 ∈ (timeout_stale_sessions timeoutMinutes now st).1,
      (r2 ∈ st ∧
        (r2.isActive = true → ¬ r2.lastProgressUpdate < now - timeoutMinutes * 60)) ∨
      ∃ r ∈ st, r.isActive = true ∧
        r.lastProgressUpdate < now - timeoutMinutes * 60 ∧
        r2 = { r with endedAt := some r.lastProgressUpdate, isActive := false }) ∧
    (timeout_stale_sessions timeoutMinutes now st).2 =
      (st.filter (fun r =>
        decide (r.isActive = true ∧
          r.lastProgressUpdate < now - timeoutMinutes * 60))).length ∧
    (timeout_stale_sessions timeoutMinutes now st).1.length = st.length := by
  refine ⟨?_, ?_, ?_, ?_, ?_⟩
  · intro r hr ha ho
    show _ ∈ (timeout_stale_sessions timeoutMinutes now st).1
    rw [timeout_stale_sessions]
    exact List.mem_map.mpr ⟨r, hr, by simp [ha, ho]⟩
  · intro r hr hcond
    have hc : ¬ (r.isActive = true ∧
        r.lastProgressUpdate < now - timeoutMinutes * 60) :=
      fun hc => hcond hc.1 hc.2
    rw [timeout_stale_sessions]
    exact List.mem_map.mpr ⟨r, hr, by simp [hc]⟩
  · intro r2 h2
    rw [timeout_stale_sessions] at h2
    rw [List.mem_map] at h2
    obtain ⟨r, hr, heq⟩ := h2
    by_cases hc : r.isActive = true ∧ r.lastProgressUpdate < now - timeoutMinutes * 60
    · right
      refine ⟨r, hr, hc.1, hc.2, ?_⟩
      rw [← heq]
      simp [hc.1, hc.2]
    · left
      have heq2 : r = r2 := by
        rw [← heq]
        simp [hc]
      rw [← heq2]
      exact ⟨hr, fun ha ho => hc ⟨ha, ho⟩⟩
  · rw [timeout_stale_sessions]
    exact List.countP_eq_length_filter _ _
  · rw [timeout_stale_sessions]
    exact List.length_map _ _

/-- Witness for C4: with a 5-minute timeout at time 1000, a session last
updated at time 0 is finalized with `ended_at` equal to that update time, a
session updated at time 900 is untouched, and the count is 1. -/
theorem timeout_stale_sessions_spec_witness :
    { sampleRow with endedAt := some 0, isActive := false } ∈
      (timeout_stale_sessions 5 1000
        [sampleRow, { sampleRow with sessionId := "s2", lastProgressUpdate := 900 }]).1 ∧
    { sampleRow with sessionId := "s2", lastProgressUpdate := 900 } ∈
      (timeout_stale_sessions 5 1000
        [sampleRow, { sampleRow with sessionId := "s2", lastProgressUpdate := 900 }]).1 ∧
    (timeout_stale_sessions 5 1000
        [sampleRow, { sampleRow with sessionId := "s2", lastProgressUpdate := 900 }]).2 = 1 := by
  refine ⟨(timeout_stale_sessions_spec 5 1000 _).1 sampleRow (by simp)
      (by decide) (by decide),
    (timeout_stale_sessions_spec 5 1000 _).2.1 _ (by simp) (by decide),
    ((timeout_stale_sessions_spec 5 1000 _).2.2.2.1).trans (by decide)⟩

end Jellytrack

namespace Jellytrack

/-- Counterexample for claim C5: with the session `s1` stored inactive, the
call updates nothing — but the function's return value is `none` (Python
`None`), not a zero row count: nothing is reported to the caller. -/
theorem update_session_state_returns_no_rowcount :
    (update_session_state "s1" 5 false 3 2 100
        [{ sampleRow with isActive := false }]).2 ≠ some 0 ∧
    (update_session_state "s1" 5 false 3 2 100
        [{ sampleRow with isActive := false }]).1 =
      [{ sampleRow with isActive := false }] := by
  refine ⟨?_, ?_⟩ <;> decide

/-- Claim C5 (amended): the single UPDATE statement adds the deltas and
overwrites the playhead fields of the matching active row; when the session is
not active the call leaves the stored state unchanged; the function always
returns `none`, reporting no affected-row count to the caller. -/
theorem update_session_state_spec (sessionId : String) (positionSeconds : Int)
    (isPaused : Bool) (playAdd pausedAdd now : Int) (st : List SessionRow) :
    (update_session_state sessionId positionSeconds isPaused playAdd pausedAdd
      now st).2 = none ∧
    ((∀ r ∈ st, r.sessionId = sessionId → r.isActive = false) →
      (update_session_state sessionId positionSeconds isPaused playAdd pausedAdd
        now st).1 = st) ∧
    (∀ r ∈ st, r.sessionId = sessionId → r.isActive = true →
      applyDeltaRow positionSeconds isPaused playAdd pausedAdd now r ∈
        (update_session_state sessionId positionSeconds isPaused playAdd
          pausedAdd now st).1) ∧
    (∀ r ∈ st, ¬ (r.sessionId = sessionId ∧ r.isActive = true) →
      r ∈ (update_session_state sessionId positionSeconds isPaused playAdd
        pausedAdd now st).1) := by
  refine ⟨rfl, ?_, ?_, ?_⟩
  · intro hall
    show st.map _ = st
    conv_rhs => rw [← List.map_id st]
    refine List.map_congr_left (fun r hr => ?_)
    have : ¬ (r.sessionId = sessionId ∧ r.isActive = true) := by
      rintro ⟨h1, h2⟩
      rw [hall r hr h1] at h2
      exact Bool.false_ne_true h2
    simp [this]
  · intro r hr h1 h2
    show _ ∈ st.map _
    exact List.mem_map.mpr ⟨r, hr, by simp [h1, h2]⟩
  · intro r hr hc
    show _ ∈ st.map _
    exact List.mem_map.mpr ⟨r, hr, by simp [hc]⟩

/-- Witness for C5 (amended) at concrete stores: an inactive row is left
unchanged, and an active row receives the deltas. -/
theorem update_session_state_spec_witness :
    (update_session_state "s1" 5 true 3 2 100
        [{ sampleRow with isActive := false }]).1 =
      [{ sampleRow with isActive := false }] ∧
    applyDeltaRow 5 true 3 2 100 sampleRow ∈
      (update_session_state "s1" 5 true 3 2 100 [sampleRow]).1 :=
  ⟨(update_session_state_spec "s1" 5 true 3 2 100 _).2.1 (by decide),
   (update_session_state_spec "s1" 5 true 3 2 100 _).2.2.1 sampleRow
     (by simp) rfl rfl⟩

end Jellytrack

namespace Jellytrack

/-- Filtering with a predicate after keeping only its complement yields
nothing. -/
theorem filter_not_filter {α : Type} (p : α → Bool) (l : List α) :
    (l.filter (fun a => !(p a))).filter p = [] := by
  induction l with
  | nil => rfl
  | cons a t ih => by_cases h : p a <;> simp [List.filter_cons, h, ih]

/-- Filtering twice with the same predicate equals filtering once. -/
theorem filter_filter_self {α : Type} (p : α → Bool) (l : List α) :
    (l.filter p).filter p = l.filter p := by
  induction l with
  | nil => rfl
  | cons a t ih => by_cases h : p a <;> simp [List.filter_cons, h, ih]

/-- Summing the constant one over a list counts its length. -/
theorem sum_map_one {α : Type} (l : List α) :
    (l.map (fun _ => (1 : Int))).sum = l.length := by
  induction l with
  | nil => rfl
  | cons a t ih =>
    simp [ih]
    omega

/-- Merging one contribution into a bucket list adds its value to any total
that the combine function treats additively. -/
theorem sumBy_mergeBy (f : AggRow → Int) (combine : AggRow → AggRow → AggRow)
    (hc : ∀ a g, f (combine a g) = f a + f g) (l : List AggRow) (g : AggRow) :
    ((mergeBy combine l g).map f).sum = (l.map f).sum + f g := by
  induction l with
  | nil => simp [mergeBy]
  | cons a t ih =>
    rw [mergeBy]
    by_cases h : sameBucket a g
    · simp [h, hc]
      omega
    · simp [h, ih]
      omega

/-- Folding bucket merges over a list of contributions adds all their values
to any additively combined total. -/
theorem sumBy_foldl_mergeBy (f : AggRow → Int)
    (combine : AggRow → AggRow → AggRow)
    (hc : ∀ a g, f (combine a g) = f a + f g) (groups : List AggRow)
    (init : List AggRow) :
    ((groups.foldl (mergeBy combine) init).map f).sum =
      (init.map f).sum + (groups.map f).sum := by
  induction groups generalizing init with
  | nil => simp
  | cons g t ih =>
    rw [List.foldl_cons, ih, sumBy_mergeBy f combine hc]
    simp
    omega

/-- Grouping session rows preserves any total that is additive for the
GROUP BY combine and agrees with the per-row contribution. -/
theorem sumBy_group_sessions (f : AggRow → Int) (frow : SessionRow → Int)
    (hc : ∀ a g, f (groupCombine a g) = f a + f g)
    (hrow : ∀ r, f (rowBucket r) = frow r) (rows : List SessionRow) :
    ((group_sessions rows).map f).sum = (rows.map frow).sum := by
  suffices h : ∀ init : List AggRow,
      ((rows.foldl (fun gs r => mergeBy groupCombine gs (rowBucket r))
        init).map f).sum = (init.map f).sum + (rows.map frow).sum by
    have := h []
    simpa [group_sessions] using this
  induction rows with
  | nil => intro init; simp
  | cons r t ih =>
    intro init
    rw [List.foldl_cons, ih, sumBy_mergeBy f groupCombine hc, hrow]
    simp
    omega

/-- Unfolding equation for `aggregate_and_prune`. -/
theorem aggregate_and_prune_eq (retentionDays now : Int) (st : AggState) :
    aggregate_and_prune retentionDays now st =
      ({ sessions := st.sessions.filter
          (fun r => !(agedRow (now - retentionDays * 86400) r)),
         aggregates := (group_sessions (st.sessions.filter
          (agedRow (now - retentionDays * 86400)))).foldl
            (mergeBy upsertCombine) st.aggregates },
       (st.sessions.filter (agedRow (now - retentionDays * 86400))).length) :=
  rfl

/-- Claim C2: running `aggregate_and_prune` twice in a row yields exactly the
state of running it once and the second run compacts zero rows; the one run
adds, per aggregate total, precisely the totals of the finalized sessions
older than the cutoff, and deletes exactly those rows. -/
theorem aggregate_and_prune_idempotent (retentionDays now : Int)
    (st : AggState) :
    (aggregate_and_prune retentionDays now
        (aggregate_and_prune retentionDays now st).1).1 =
      (aggregate_and_prune retentionDays now st).1 ∧
    (aggregate_and_prune retentionDays now
        (aggregate_and_prune retentionDays now st).1).2 = 0 ∧
    sumCountAgg (aggregate_and_prune retentionDays now st).1.aggregates =
      sumCountAgg st.aggregates +
        (st.sessions.filter (agedRow (now - retentionDays * 86400))).length ∧
    sumPlayAgg (aggregate_and_prune retentionDays now st).1.aggregates =
      sumPlayAgg st.aggregates +
        sumPlayRows (st.sessions.filter (agedRow (now - retentionDays * 86400))) ∧
    sumPausedAgg (aggregate_and_prune retentionDays now st).1.aggregates =
      sumPausedAgg st.aggregates +
        sumPausedRows (st.sessions.filter (agedRow (now - retentionDays * 86400))) ∧
    (aggregate_and_prune retentionDays now st).1.sessions =
      st.sessions.filter (fun r => !(agedRow (now - retentionDays * 86400) r)) := by
  have haged2 : ((aggregate_and_prune retentionDays now st).1.sessions).filter
      (agedRow (now - retentionDays * 86400)) = [] := by
    rw [aggregate_and_prune_eq]
    exact filter_not_filter _ _
  have hsess : ((aggregate_and_prune retentionDays now st).1.sessions).filter
      (fun r => !(agedRow (now - retentionDays * 86400) r)) =
      (aggregate_and_prune retentionDays now st).1.sessions := by
    rw [aggregate_and_prune_eq]
    exact filter_filter_self _ _
  have hkey : aggregate_and_prune retentionDays now
      (aggregate_and_prune retentionDays now st).1 =
      ((aggregate_and_prune retentionDays now st).1, 0) := by
    rw [aggregate_and_prune_eq retentionDays now
      (aggregate_and_prune retentionDays now st).1, haged2, hsess]
    rfl
  refine ⟨?_, ?_, ?_, ?_, ?_, rfl⟩
  · rw [hkey]
  · rw [hkey]
  · show sumCountAgg ((group_sessions (st.sessions.filter
        (agedRow (now - retentionDays * 86400)))).foldl
          (mergeBy upsertCombine) st.aggregates) = _
    rw [sumCountAgg, sumCountAgg,
      sumBy_foldl_mergeBy (·.sessionCount) upsertCombine (fun a g => rfl),
      sumBy_group_sessions (·.sessionCount) (fun _ => 1) (fun a g => rfl)
        (fun r => rfl), sum_map_one]
  · show sumPlayAgg ((group_sessions (st.sessions.filter
        (agedRow (now - retentionDays * 86400)))).foldl
          (mergeBy upsertCombine) st.aggregates) = _
    rw [sumPlayAgg, sumPlayAgg,
      sumBy_foldl_mergeBy (·.playSeconds) upsertCombine (fun a g => rfl),
      sumBy_group_sessions (·.playSeconds) (·.playDurationSeconds)
        (fun a g => rfl) (fun r => rfl)]
    rfl
  · show sumPausedAgg ((group_sessions (st.sessions.filter
        (agedRow (now - retentionDays * 86400)))).foldl
          (mergeBy upsertCombine) st.aggregates) = _
    rw [sumPausedAgg, sumPausedAgg,
      sumBy_foldl_mergeBy (·.pausedSeconds) upsertCombine (fun a g => rfl),
      sumBy_group_sessions (·.pausedSeconds) (·.pausedDurationSeconds)
        (fun a g => rfl) (fun r => rfl)]
    rfl

end Jellytrack

namespace Jellytrack

/-- Claim C3: the absence sweep never runs.  At a snapshot carrying only
session `s2` while active session `s1` is stored, `_handle_sessions` performs
the per-entry updates and then aborts with the `AttributeError` raised inside
`db.get_active_sessions()` (the `Settings` model declares no
`excluded_user_names_list`), so the absent session `s1` — although it carries
no entry in the snapshot — stays stored unchanged and active instead of being
finalized. -/
theorem handle_sessions_attribute_error :
    (handle_sessions [sampleEntry] 1000 [sampleRow]).2 =
      some "AttributeError: Settings object has no attribute excluded_user_names_list" ∧
    (handle_sessions [sampleEntry] 1000 [sampleRow]).1.filter
      (fun r => decide (r.sessionId = "s1")) = [sampleRow] ∧
    sampleRow.isActive = true ∧
    sampleRow.sessionId ∉ presentIds [sampleEntry] := by
  refine ⟨rfl, by decide, rfl, by decide⟩

/-- Claim C10: a `PlaybackStart` event whose session id already has an active
stored session leaves the store entirely unchanged; a session is created from
the event only when no active session with that id exists. -/
theorem handle_playback_start_frame (d : StartData) (now : Int)
    (st : List SessionRow) :
    ((get_active_session st d.sessionId).isSome = true →
      handle_playback_start d now st = st) ∧
    (∀ item, d.item = some item → ¬ d.sessionId = "" →
      get_active_session st d.sessionId = none →
      handle_playback_start d now st =
        create_session (freshRowFromStart d item now) st) := by
  constructor
  · intro h
    obtain ⟨r, hga⟩ := Option.isSome_iff_exists.mp h
    by_cases hid : d.sessionId = ""
    · simp [handle_playback_start, hid]
    · cases hitem : d.item with
      | none => simp [handle_playback_start, hid, hitem]
      | some item => simp [handle_playback_start, hid, hitem, hga]
  · intro item hitem hid hga
    simp [handle_playback_start, hid, hitem, hga]

/-- Witness for C10: a start event for `s1` against a store holding active
`s1` changes nothing; against the empty store it creates the fresh session. -/
theorem handle_playback_start_frame_witness :
    handle_playback_start sampleStart 1000 [sampleRow] = [sampleRow] ∧
    handle_playback_start sampleStart 1000 [] =
      create_session (freshRowFromStart sampleStart sampleItem 1000) [] :=
  ⟨(handle_playback_start_frame sampleStart 1000 [sampleRow]).1 (by decide),
   (handle_playback_start_frame sampleStart 1000 []).2 sampleItem rfl
     (by decide) (by decide)⟩

end Jellytrack

namespace Jellytrack

/-- Both components of the delta calculator are nonnegative. -/
theorem calculate_deltas_nonneg (r : SessionRow) (pos : Int) (paused : Bool)
    (now : Int) :
    0 ≤ (calculate_deltas r pos paused now).1 ∧
    0 ≤ (calculate_deltas r pos paused now).2 := by
  cases h : r.lastStateIsPaused <;> simp [calculate_deltas, h] <;> omega

/-- Counterexample for claim C6: a system trace that creates a session,
accumulates 10 seconds of play, stops it, and then sees the same session id
reused (a new create after finalization, as `_handle_sessions` performs when
`get_active_session` is empty): the upsert resets the row's accumulator from
10 back to 0, so `play_duration_seconds` decreases. -/
theorem accumulators_decrease_on_reuse :
    (run_ops [StoreOp.create sampleEntry sampleItem 0 false 0,
      StoreOp.observe 10 false 10]).map
        (fun r => r.playDurationSeconds) = some 10 ∧
    (run_ops [StoreOp.create sampleEntry sampleItem 0 false 0,
      StoreOp.observe 10 false 10,
      StoreOp.stop 10 false 12,
      StoreOp.create sampleEntry sampleItem 0 false 20]).map
        (fun r => r.playDurationSeconds) = some 0 := by
  refine ⟨?_, ?_⟩ <;> decide

/-- Claim C6 (amended): over every system trace the accumulators stay
nonnegative, and every operation except the create/upsert (which resets a
reused finalized session to a fresh session's zero accumulators) never
decreases `play_duration_seconds` or `paused_duration_seconds`. -/
theorem run_ops_accumulators (ops : List StoreOp) :
    AccNonneg (run_ops ops) ∧
    (∀ (r r2 : SessionRow) (op : StoreOp), op.isCreate = false →
      step_session (some r) op = some r2 →
      r.playDurationSeconds ≤ r2.playDurationSeconds ∧
      r.pausedDurationSeconds ≤ r2.pausedDurationSeconds) := by
  have hstep : ∀ (s : Option SessionRow) (op : StoreOp),
      AccNonneg s → AccNonneg (step_session s op) := by
    intro s op h
    cases op with
    | create e item pos paused now =>
      cases s with
      | none => simp [step_session, freshRowFromEntry, AccNonneg]
      | some r =>
        by_cases ha : r.isActive
        · simpa [step_session, ha, AccNonneg] using h
        · simp [step_session, ha, freshRowFromEntry, AccNonneg]
    | observe pos paused now =>
      cases s with
      | none => simpa [step_session, AccNonneg] using h
      | some r =>
        by_cases ha : r.isActive
        · have hd := calculate_deltas_nonneg r pos paused now
          have hr := h
          simp [AccNonneg] at hr
          simp [step_session, ha, AccNonneg, applyDeltaRow]
          omega
        · simpa [step_session, ha, AccNonneg] using h
    | stop pos paused now =>
      cases s with
      | none => simpa [step_session, AccNonneg] using h
      | some r =>
        by_cases ha : r.isActive
        · have hd := calculate_deltas_nonneg r pos paused now
          have hr := h
          simp [AccNonneg] at hr
          simp [step_session, ha, AccNonneg, applyDeltaRow]
          omega
        · simpa [step_session, ha, AccNonneg] using h
    | reap cutoff =>
      cases s with
      | none => simpa [step_session, AccNonneg] using h
      | some r =>
        by_cases hc : r.isActive = true ∧ r.lastProgressUpdate < cutoff
        · have hr := h
          simp [AccNonneg] at hr
          simp [step_session, hc, AccNonneg]
          omega
        · simpa [step_session, hc, AccNonneg] using h
  have hrun : ∀ (l : List StoreOp) (s : Option SessionRow),
      AccNonneg s → AccNonneg (l.foldl step_session s) := by
    intro l
    induction l with
    | nil => intro s h; exact h
    | cons op t ih => intro s h; exact ih _ (hstep s op h)
  refine ⟨hrun ops none trivial, ?_⟩
  intro r r2 op hco hst
  cases op with
  | create e item pos paused now => simp [StoreOp.isCreate] at hco
  | observe pos paused now =>
    have hd := calculate_deltas_nonneg r pos paused now
    by_cases ha : r.isActive
    · rw [step_session] at hst
      simp [ha] at hst
      rw [← hst]
      simp [applyDeltaRow]
      omega
    · rw [step_session] at hst
      simp [ha] at hst
      rw [← hst]
      exact ⟨le_refl _, le_refl _⟩
  | stop pos paused now =>
    have hd := calculate_deltas_nonneg r pos paused now
    by_cases ha : r.isActive
    · rw [step_session] at hst
      simp [ha] at hst
      rw [← hst]
      simp [applyDeltaRow]
      omega
    · rw [step_session] at hst
      simp [ha] at hst
      rw [← hst]
      exact ⟨le_refl _, le_refl _⟩
  | reap cutoff =>
    by_cases hc : r.isActive = true ∧ r.lastProgressUpdate < cutoff
    · rw [step_session] at hst
      simp [hc] at hst
      rw [← hst]
      exact ⟨le_refl _, le_refl _⟩
    · rw [step_session] at hst
      simp [hc] at hst
      rw [← hst]
      exact ⟨le_refl _, le_refl _⟩

/-- Witness for C6 (amended) at concrete inputs: a short trace keeps the
accumulators nonnegative, and a concrete reap step does not decrease them. -/
theorem run_ops_accumulators_witness :
    AccNonneg (run_ops [StoreOp.create sampleEntry sampleItem 0 false 0,
      StoreOp.stop 10 false 12]) ∧
    (sampleRow.playDurationSeconds ≤
      ({ sampleRow with endedAt := some 0, isActive := false } :
        SessionRow).playDurationSeconds ∧
     sampleRow.pausedDurationSeconds ≤
      ({ sampleRow with endedAt := some 0, isActive := false } :
        SessionRow).pausedDurationSeconds) :=
  ⟨(run_ops_accumulators [StoreOp.create sampleEntry sampleItem 0 false 0,
      StoreOp.stop 10 false 12]).1,
   (run_ops_accumulators []).2 sampleRow
     { sampleRow with endedAt := some 0, isActive := false }
     (StoreOp.reap 5) (by decide) (by decide)⟩

end Jellytrack

namespace Jellytrack

/-- Claim C9: the importer does NOT skip a row whose `DateCreated` fails all
three parse formats — the final `strptime` call is outside any try/except, so
the `ValueError` aborts the whole import: on `[badImportRow, goodImportRow]`
the import errors out and the well-formed second row is never imported,
whereas the well-formed row alone imports fine (1 imported, 0 skipped). -/
theorem import_aborts_on_bad_date :
    import_all_rows [] [badImportRow, goodImportRow] [] 0 0 =
      Except.error "ValueError: unparseable DateCreated" ∧
    (import_all_rows [] [goodImportRow] [] 0 0).map (fun x => x.2) =
      Except.ok (1, 0) := by
  constructor
  · rfl
  · rfl

end Jellytrack
